import Mathlib

/-!
Verification of the SENATRAN fine-scraper core against its specification.

Each definition below is a shallow embedding of a function of the repository
(`src/fine_scrapper.py`, `src/auth_handler.py`, `src/captcha_handler.py`,
`src/database.py`, `src/vehicle_scraper.py`).  Browser state that a function
probes (element counts, inner texts, URLs) is modelled as explicit data; a
probe that can raise is modelled with `Option` (`none` = the probe threw or
found nothing, matching the source's `try/except ... continue` shape), and
Python exceptions that escape a function are modelled with `Except`.
-/

set_option autoImplicit false

namespace Senatran

/-! ### Python string primitives

The source compares and normalises strings with `in`, `.lower()`, `.upper()`
and `.strip()`.  These are modelled character-wise over `String.data`
(ASCII case mapping; accented characters pass through unchanged, which agrees
with Python on every string the source compares against). -/

/-- ASCII lowercasing of one character, as used by Python `str.lower`. -/
def pyLowerChar (c : Char) : Char :=
  if 'A' ≤ c && c ≤ 'Z' then Char.ofNat (c.toNat + 32) else c

/-- ASCII uppercasing of one character, as used by Python `str.upper`. -/
def pyUpperChar (c : Char) : Char :=
  if 'a' ≤ c && c ≤ 'z' then Char.ofNat (c.toNat - 32) else c

/-- Python `s.lower()`. -/
def pyLower (s : String) : String := ⟨s.data.map pyLowerChar⟩

/-- Python `s.upper()`. -/
def pyUpper (s : String) : String := ⟨s.data.map pyUpperChar⟩

/-- Does `pat` occur as a contiguous run inside `hay`?  (Python `pat in hay`.) -/
def hasSubstr (hay pat : List Char) : Bool :=
  pat.isPrefixOf hay ||
    match hay with
    | [] => false
    | _ :: rest => hasSubstr rest pat

/-- Python substring test `pat in s`. -/
def strContains (s pat : String) : Bool := hasSubstr s.data pat.data

/-- Python `s.strip()` (whitespace removed from both ends). -/
def pyStrip (s : String) : String :=
  ⟨((s.data.dropWhile Char.isWhitespace).reverse.dropWhile Char.isWhitespace).reverse⟩

/-! ### Persistence layer: `DatabaseManager` (`src/database.py`)

The `fines` table has primary key `renainf`; SQLite `INSERT OR REPLACE`
deletes any row carrying the conflicting key and inserts the new row.
The table is modelled as the list of its rows. -/

/-- One row of the `fines` table, column for column (`last_updated` holds the
`datetime.now().isoformat()` string written by the upsert). -/
structure FineRow where
  renainf : String
  vehicle_plate : Option String
  orgao_autuador : Option String
  orgao_competente : Option String
  local_infracao : Option String
  data_hora_cometimento : Option String
  numero_auto : Option String
  codigo_infracao : Option String
  valor_original : Option String
  data_notificacao_autuacao : Option String
  data_limite_defesa_previa : Option String
  data_limite_identificacao_condutor : Option String
  data_notificacao_penalidade : Option String
  data_limite_recurso : Option String
  data_vencimento_desconto : Option String
  last_updated : String
deriving Repr, DecidableEq

/-- The `fine_data` dictionary handed to `upsert_fine`: `renainf = none`
models the `'renainf'` key being absent, every other field is read with
`dict.get` (absent key ⇒ SQL NULL). -/
structure FineData where
  renainf : Option String
  vehicle_plate : Option String
  orgao_autuador : Option String
  orgao_competente : Option String
  local_infracao : Option String
  data_hora_cometimento : Option String
  numero_auto : Option String
  codigo_infracao : Option String
  valor_original : Option String
  data_notificacao_autuacao : Option String
  data_limite_defesa_previa : Option String
  data_limite_identificacao_condutor : Option String
  data_notificacao_penalidade : Option String
  data_limite_recurso : Option String
  data_vencimento_desconto : Option String
deriving Repr, DecidableEq

/-- The row written for key `k` from `fine_data` at timestamp `now`. -/
def rowOfData (k : String) (d : FineData) (now : String) : FineRow where
  renainf := k
  vehicle_plate := d.vehicle_plate
  orgao_autuador := d.orgao_autuador
  orgao_competente := d.orgao_competente
  local_infracao := d.local_infracao
  data_hora_cometimento := d.data_hora_cometimento
  numero_auto := d.numero_auto
  codigo_infracao := d.codigo_infracao
  valor_original := d.valor_original
  data_notificacao_autuacao := d.data_notificacao_autuacao
  data_limite_defesa_previa := d.data_limite_defesa_previa
  data_limite_identificacao_condutor := d.data_limite_identificacao_condutor
  data_notificacao_penalidade := d.data_notificacao_penalidade
  data_limite_recurso := d.data_limite_recurso
  data_vencimento_desconto := d.data_vencimento_desconto
  last_updated := now

/-- SQLite `INSERT OR REPLACE` on the `renainf` primary key: every row whose
key conflicts with the new row is deleted, then the new row is inserted. -/
def insertOrReplace (tbl : List FineRow) (r : FineRow) : List FineRow :=
  tbl.filter (fun row => row.renainf ≠ r.renainf) ++ [r]

/-- `DatabaseManager.upsert_fine`: refuse (return `False`) when the
`'renainf'` key is absent, before any SQL executes; otherwise run the
`INSERT OR REPLACE` with `last_updated = now` and return `True`. -/
def upsert_fine (tbl : List FineRow) (d : FineData) (now : String) :
    Bool × List FineRow :=
  match d.renainf with
  | none => (false, tbl)
  | some k => (true, insertOrReplace tbl (rowOfData k d now))

/-- One iteration of the batch loop: upsert the record, bump `success_count`
when the upsert reports success. -/
def batchStep (now : String) (acc : Nat × List FineRow) (d : FineData) :
    Nat × List FineRow :=
  let r := upsert_fine acc.2 d now
  (if r.1 then acc.1 + 1 else acc.1, r.2)

/-- `DatabaseManager.upsert_fines_batch`: upsert each record in order and
return how many individual upserts reported success. -/
def upsert_fines_batch (tbl : List FineRow) (ds : List FineData) (now : String) :
    Nat × List FineRow :=
  ds.foldl (batchStep now) (0, tbl)

/-! ### Plate extraction (`src/vehicle_scraper.py`, `_extract_plate_from_text`) -/

/-- `[A-Z]` of the plate regexes. -/
def isUpperAZ (c : Char) : Bool := 'A' ≤ c && c ≤ 'Z'

/-- `\d` of the plate regexes (ASCII digits). -/
def isDigit09 (c : Char) : Bool := '0' ≤ c && c ≤ '9'

/-- `\d{4}` anchored at the head of the list. -/
def fourDigits : List Char → Option (List Char)
  | d1 :: d2 :: d3 :: d4 :: _ =>
    if isDigit09 d1 && isDigit09 d2 && isDigit09 d3 && isDigit09 d4 then
      some [d1, d2, d3, d4]
    else none
  | _ => none

/-- The old-format regex `[A-Z]{3}-?\d{4}` anchored at the head of the list
(with the regex engine's greedy `-?` backtracking: a dash is consumed only
when four digits follow it). -/
def matchOldAt : List Char → Option (List Char)
  | a :: b :: c :: rest =>
    if isUpperAZ a && isUpperAZ b && isUpperAZ c then
      match rest with
      | '-' :: rest2 =>
        match fourDigits rest2 with
        | some ds => some (a :: b :: c :: '-' :: ds)
        | none => none
      | _ =>
        match fourDigits rest with
        | some ds => some (a :: b :: c :: ds)
        | none => none
    else none
  | _ => none

/-- The Mercosul regex `[A-Z]{3}\d{1}[A-Z]\d{2}` anchored at the head. -/
def matchMercosulAt : List Char → Option (List Char)
  | a :: b :: c :: d :: e :: f :: g :: _ =>
    if isUpperAZ a && isUpperAZ b && isUpperAZ c &&
       isDigit09 d && isUpperAZ e && isDigit09 f && isDigit09 g then
      some [a, b, c, d, e, f, g]
    else none
  | _ => none

/-- `re.search`: try the anchored matcher at every position, leftmost first. -/
def reSearch (m : List Char → Option (List Char)) : List Char → Option (List Char)
  | [] => m []
  | c :: rest =>
    match m (c :: rest) with
    | some r => some r
    | none => reSearch m rest

/-- `VehicleScraper._extract_plate_from_text`: empty text ⇒ `None`; otherwise
search the uppercased text for the old-format pattern, then the Mercosul
pattern; on a match, uppercase the matched group and strip its dashes. -/
def extract_plate_from_text (text : String) : Option String :=
  if text.data = [] then none
  else
    match reSearch matchOldAt (pyUpper text).data with
    | some g => some ⟨(g.map pyUpperChar).filter (fun c => c ≠ '-')⟩
    | none =>
      match reSearch matchMercosulAt (pyUpper text).data with
      | some g => some ⟨(g.map pyUpperChar).filter (fun c => c ≠ '-')⟩
      | none => none

/-! ### Lemmas about the persistence model -/

theorem filter_insertOrReplace (tbl : List FineRow) (r : FineRow) :
    (insertOrReplace tbl r).filter (fun row => row.renainf = r.renainf) = [r] := by
  unfold insertOrReplace
  rw [List.filter_append]
  have h1 : (tbl.filter (fun row => row.renainf ≠ r.renainf)).filter
      (fun row => row.renainf = r.renainf) = [] := by
    rw [List.filter_eq_nil_iff]
    intro a ha
    have h2 := (List.mem_filter.mp ha).2
    simp only [decide_eq_true_eq] at h2 ⊢
    simpa using h2
  rw [h1]
  simp

theorem upsert_fines_batch_fold (ds : List FineData) :
    ∀ (tbl : List FineRow) (now : String) (n : Nat),
      (ds.foldl (batchStep now) (n, tbl)).1
        = n + ds.countP (fun d => d.renainf.isSome) := by
  induction ds with
  | nil => intro tbl now n; simp
  | cons d rest ih =>
    intro tbl now n
    rw [List.foldl_cons, List.countP_cons]
    cases hd : d.renainf with
    | none =>
      have hstep : batchStep now (n, tbl) d = (n, tbl) := by
        simp [batchStep, upsert_fine, hd]
      rw [hstep, ih]
      simp [hd]
    | some k =>
      have hstep : batchStep now (n, tbl) d
          = (n + 1, insertOrReplace tbl (rowOfData k d now)) := by
        simp [batchStep, upsert_fine, hd]
      rw [hstep, ih]
      simp [hd]
      omega

/-- C8: upserting the same fine record (same `renainf` key) twice yields
exactly one stored row for that key, the key unchanged and the row carrying
the second write's timestamp; both upserts succeed, and the batch upsert
returns the count of the individually successful upserts (those whose input
carries the `renainf` key). -/
theorem upsert_fine_idempotent (tbl : List FineRow) (d : FineData)
    (k now1 now2 : String) (h : d.renainf = some k) :
    (upsert_fine tbl d now1).1 = true ∧
    (upsert_fine (upsert_fine tbl d now1).2 d now2).1 = true ∧
    ((upsert_fine (upsert_fine tbl d now1).2 d now2).2.filter
        (fun row => row.renainf = k)) = [rowOfData k d now2] ∧
    (∀ (ds : List FineData) (now : String),
        (upsert_fines_batch tbl ds now).1
          = ds.countP (fun d2 => d2.renainf.isSome)) := by
  refine ⟨by simp [upsert_fine, h], by simp [upsert_fine, h], ?_, ?_⟩
  · simp only [upsert_fine, h]
    have hk : (rowOfData k d now2).renainf = k := rfl
    have := filter_insertOrReplace
      (insertOrReplace tbl (rowOfData k d now1)) (rowOfData k d now2)
    rw [hk] at this
    exact this
  · intro ds now
    unfold upsert_fines_batch
    rw [upsert_fines_batch_fold]
    simp

/-- C8 witness: a concrete double upsert of key `R1` over a table already
holding an unrelated row, and a concrete batch. -/
theorem upsert_fine_idempotent_witness :
    (upsert_fine [rowOfData "R0" ⟨some "R0", none, none, none, none, none,
        none, none, none, none, none, none, none, none, none⟩ "t0"]
      ⟨some "R1", some "AAA1234", none, none, none, none, none, none, none,
        none, none, none, none, none, none⟩ "t1").1 = true ∧
    (upsert_fine (upsert_fine [rowOfData "R0" ⟨some "R0", none, none, none,
        none, none, none, none, none, none, none, none, none, none, none⟩ "t0"]
      ⟨some "R1", some "AAA1234", none, none, none, none, none, none, none,
        none, none, none, none, none, none⟩ "t1").2
      ⟨some "R1", some "AAA1234", none, none, none, none, none, none, none,
        none, none, none, none, none, none⟩ "t2").1 = true ∧
    ((upsert_fine (upsert_fine [rowOfData "R0" ⟨some "R0", none, none, none,
        none, none, none, none, none, none, none, none, none, none, none⟩ "t0"]
      ⟨some "R1", some "AAA1234", none, none, none, none, none, none, none,
        none, none, none, none, none, none⟩ "t1").2
      ⟨some "R1", some "AAA1234", none, none, none, none, none, none, none,
        none, none, none, none, none, none⟩ "t2").2.filter
        (fun row => row.renainf = "R1"))
      = [rowOfData "R1" ⟨some "R1", some "AAA1234", none, none, none, none,
          none, none, none, none, none, none, none, none, none⟩ "t2"] ∧
    (∀ (ds : List FineData) (now : String),
        (upsert_fines_batch [rowOfData "R0" ⟨some "R0", none, none, none,
            none, none, none, none, none, none, none, none, none, none, none⟩
            "t0"] ds now).1
          = ds.countP (fun d2 => d2.renainf.isSome)) :=
  upsert_fine_idempotent _ _ "R1" "t1" "t2" rfl

/-- C9: an input dictionary lacking the `renainf` key makes `upsert_fine`
return `False` with the stored table unchanged — the key precondition is
checked before any SQL statement runs. -/
theorem upsert_fine_missing_key (tbl : List FineRow) (d : FineData)
    (now : String) (h : d.renainf = none) :
    upsert_fine tbl d now = (false, tbl) := by
  simp [upsert_fine, h]

/-- C9 witness: a concrete keyless record against a concrete table. -/
theorem upsert_fine_missing_key_witness :
    upsert_fine [rowOfData "R0" ⟨some "R0", none, none, none, none, none,
        none, none, none, none, none, none, none, none, none⟩ "t0"]
      ⟨none, some "AAA1234", none, none, none, none, none, none, none, none,
        none, none, none, none, none⟩ "t1"
      = (false, [rowOfData "R0" ⟨some "R0", none, none, none, none, none,
          none, none, none, none, none, none, none, none, none⟩ "t0"]) :=
  upsert_fine_missing_key _ _ _ rfl

/-! ### Lemmas about plate extraction -/

/-- Characters a matched plate group can contain. -/
def plateChar (c : Char) : Bool := isUpperAZ c || isDigit09 c || c == '-'

theorem fourDigits_chars (l r : List Char) (h : fourDigits l = some r) :
    ∀ c ∈ r, isDigit09 c = true := by
  unfold fourDigits at h
  split at h
  · split at h
    · rename_i d1 d2 d3 d4 _ hd
      cases h
      simp only [Bool.and_eq_true] at hd
      intro c hc
      simp only [List.mem_cons, List.not_mem_nil, or_false] at hc
      rcases hc with rfl | rfl | rfl | rfl
      · exact hd.1.1.1
      · exact hd.1.1.2
      · exact hd.1.2
      · exact hd.2
    · exact absurd h (by simp)
  · exact absurd h (by simp)

theorem matchOldAt_chars (l r : List Char) (h : matchOldAt l = some r) :
    ∀ c ∈ r, plateChar c = true := by
  unfold matchOldAt at h
  split at h
  · rename_i a b c rest
    split at h
    · rename_i habc
      simp only [Bool.and_eq_true] at habc
      split at h
      · rename_i rest2
        cases hfd : fourDigits rest2 with
        | none => rw [hfd] at h; exact absurd h (by simp)
        | some ds =>
          rw [hfd] at h
          cases h
          have hds := fourDigits_chars rest2 ds hfd
          intro x hx
          simp only [List.mem_cons] at hx
          rcases hx with rfl | rfl | rfl | rfl | hx
          · simp [plateChar, habc.1.1]
          · simp [plateChar, habc.1.2]
          · simp [plateChar, habc.2]
          · simp [plateChar]
          · simp [plateChar, hds x hx]
      · rename_i rest2 _
        cases hfd : fourDigits rest with
        | none => rw [hfd] at h; exact absurd h (by simp)
        | some ds =>
          rw [hfd] at h
          cases h
          have hds := fourDigits_chars rest ds hfd
          intro x hx
          simp only [List.mem_cons] at hx
          rcases hx with rfl | rfl | rfl | hx
          · simp [plateChar, habc.1.1]
          · simp [plateChar, habc.1.2]
          · simp [plateChar, habc.2]
          · simp [plateChar, hds x hx]
    · exact absurd h (by simp)
  · exact absurd h (by simp)

theorem matchMercosulAt_chars (l r : List Char) (h : matchMercosulAt l = some r) :
    ∀ c ∈ r, plateChar c = true := by
  unfold matchMercosulAt at h
  split at h
  · split at h
    · rename_i a b c d e f g _ hall
      cases h
      simp only [Bool.and_eq_true] at hall
      intro x hx
      simp only [List.mem_cons, List.not_mem_nil, or_false] at hx
      rcases hx with rfl | rfl | rfl | rfl | rfl | rfl | rfl
      · simp [plateChar, hall.1.1.1.1.1.1]
      · simp [plateChar, hall.1.1.1.1.1.2]
      · simp [plateChar, hall.1.1.1.1.2]
      · simp [plateChar, hall.1.1.1.2]
      · simp [plateChar, hall.1.1.2]
      · simp [plateChar, hall.1.2]
      · simp [plateChar, hall.2]
    · exact absurd h (by simp)
  · exact absurd h (by simp)

theorem reSearch_chars (m : List Char → Option (List Char)) (P : Char → Prop)
    (hm : ∀ l r, m l = some r → ∀ c ∈ r, P c) :
    ∀ l r, reSearch m l = some r → ∀ c ∈ r, P c := by
  intro l
  induction l with
  | nil => intro r h; exact hm [] r h
  | cons a rest ih =>
    intro r h
    unfold reSearch at h
    cases hma : m (a :: rest) with
    | some r2 =>
      rw [hma] at h
      cases h
      exact hm (a :: rest) _ hma
    | none =>
      rw [hma] at h
      exact ih r h

theorem pyUpperChar_plate (c : Char) (h : plateChar c = true) :
    pyUpperChar c = c := by
  unfold pyUpperChar
  have hlt : ¬ ('a' ≤ c) := by
    intro hle
    unfold plateChar isUpperAZ isDigit09 at h
    simp only [Bool.or_eq_true, Bool.and_eq_true, decide_eq_true_eq,
      beq_iff_eq] at h
    rcases h with (⟨_, h2⟩ | ⟨_, h2⟩) | h3
    · exact absurd (le_trans hle h2) (by decide)
    · exact absurd (le_trans hle h2) (by decide)
    · subst h3; exact absurd hle (by decide)
  simp [hlt]

/-- C10: plate extraction is a deterministic normalising function — on any
text it returns `none` or a plate made only of uppercase `A`–`Z` letters and
digits (all dashes removed), and the two spellings `ABC-1234` and `abc1234`
of the same old-format plate both normalise to the identifier `ABC1234`. -/
theorem extract_plate_normalizes :
    (∀ t p, extract_plate_from_text t = some p →
        ∀ c ∈ p.data, (isUpperAZ c || isDigit09 c) = true) ∧
    extract_plate_from_text "ABC-1234" = some "ABC1234" ∧
    extract_plate_from_text "abc1234" = some "ABC1234" := by
  refine ⟨?_, by decide, by decide⟩
  intro t p h c hc
  unfold extract_plate_from_text at h
  split at h
  · exact absurd h (by simp)
  · have main : ∀ (g : List Char), (∀ x ∈ g, plateChar x = true) →
        p = String.mk ((g.map pyUpperChar).filter (fun x => x ≠ '-')) →
        (isUpperAZ c || isDigit09 c) = true := by
      intro g hg hp
      subst hp
      simp only [String.data] at hc
      have hc2 := List.mem_filter.mp hc
      obtain ⟨x, hx, hxc⟩ := List.mem_map.mp hc2.1
      have hpx := hg x hx
      have hup := pyUpperChar_plate x hpx
      rw [hup] at hxc
      subst hxc
      have hdash : ¬ (x = '-') := by
        have := hc2.2
        simpa using this
      unfold plateChar at hpx
      simp only [Bool.or_eq_true, beq_iff_eq] at hpx
      rcases hpx with (hu | hd) | hd
      · simp [hu]
      · simp [hd]
      · exact absurd hd hdash
    cases hold : reSearch matchOldAt (pyUpper t).data with
    | some g =>
      rw [hold] at h
      cases h
      exact main g
        (reSearch_chars matchOldAt (fun x => plateChar x = true)
          matchOldAt_chars _ g hold) rfl
    | none =>
      rw [hold] at h
      cases hmer : reSearch matchMercosulAt (pyUpper t).data with
      | some g =>
        rw [hmer] at h
        cases h
        exact main g
          (reSearch_chars matchMercosulAt (fun x => plateChar x = true)
            matchMercosulAt_chars _ g hmer) rfl
      | none => rw [hmer] at h; exact absurd h (by simp)

/-- C10 witness: the normalisation property applied at the concrete text
`ABC-1234` and its extracted plate `ABC1234`. -/
theorem extract_plate_normalizes_witness :
    (isUpperAZ 'A' || isDigit09 'A') = true :=
  extract_plate_normalizes.1 "ABC-1234" "ABC1234" (by decide) 'A' (by decide)

/-! ### Terminal login verification (`src/auth_handler.py`, `_check_logged_in`)

The configured selectors (`LOGIN_SUCCESS_INDICATORS`,
`ENTRAR_COM_BUTTON_SELECTOR`) are injected configuration; the page state
records the match count each of them produces. -/

/-- Page state probed by `_check_logged_in`: the current URL, the element
count for each configured logged-in marker selector, and the count for the
login-initiation (`Entrar com`) control. -/
structure LoginPageState where
  url : String
  indicatorCounts : List Nat
  entrarComCount : Nat
deriving Repr, DecidableEq

/-- `AuthHandler._check_logged_in`: fail when still on the SSO host, fail
when not on the Senatran portal host, succeed on the first logged-in marker
with a positive count, otherwise succeed exactly when the login-initiation
control is absent. -/
def check_logged_in (p : LoginPageState) : Bool :=
  if strContains p.url "sso.acesso.gov.br" then false
  else if !(strContains p.url "portalservicos.senatran") then false
  else if p.indicatorCounts.any (fun n => decide (0 < n)) then true
  else if 0 < p.entrarComCount then false
  else true

/-- C3: the terminal logged-in verification returns `true` iff the URL is on
the portal host and off the SSO host and (a) some configured logged-in
marker is present or (b) the login-initiation control is absent; with no
marker found and the login control still present it returns `false` even
though the URL looks correct. -/
theorem check_logged_in_iff (p : LoginPageState) :
    check_logged_in p = true ↔
      (strContains p.url "sso.acesso.gov.br" = false ∧
       strContains p.url "portalservicos.senatran" = true ∧
       ((∃ n ∈ p.indicatorCounts, 0 < n) ∨ p.entrarComCount = 0)) := by
  unfold check_logged_in
  split_ifs with h1 h2 h3 h4
  · simp [h1]
  · have h2f : strContains p.url "portalservicos.senatran" = false := by
      cases hx : strContains p.url "portalservicos.senatran" <;> simp_all
    simp [h2f]
  · have h1f : strContains p.url "sso.acesso.gov.br" = false := by
      cases hx : strContains p.url "sso.acesso.gov.br" <;> simp_all
    have h2t : strContains p.url "portalservicos.senatran" = true := by
      cases hx : strContains p.url "portalservicos.senatran" <;> simp_all
    rw [List.any_eq_true] at h3
    obtain ⟨n, hn, hpos⟩ := h3
    simp only [decide_eq_true_eq] at hpos
    simp [h1f, h2t]
    exact Or.inl ⟨n, hn, hpos⟩
  · have h1f : strContains p.url "sso.acesso.gov.br" = false := by
      cases hx : strContains p.url "sso.acesso.gov.br" <;> simp_all
    have h2t : strContains p.url "portalservicos.senatran" = true := by
      cases hx : strContains p.url "portalservicos.senatran" <;> simp_all
    simp only [h1f, h2t, Bool.false_eq_true, iff_true, true_and]
    constructor
    · intro hcontra; exact absurd hcontra (by simp)
    · rintro (⟨n, hn, hpos⟩ | h0)
      · exact absurd (List.any_eq_true.mpr ⟨n, hn, by simpa using hpos⟩) h3
      · omega
  · have h1f : strContains p.url "sso.acesso.gov.br" = false := by
      cases hx : strContains p.url "sso.acesso.gov.br" <;> simp_all
    have h2t : strContains p.url "portalservicos.senatran" = true := by
      cases hx : strContains p.url "portalservicos.senatran" <;> simp_all
    simp [h1f, h2t]
    exact Or.inr (by omega)

/-! ### Next-page detection (`src/fine_scrapper.py`, `check_for_next_page`)

Each probed button is modelled by its `disabled` attribute and `class`
string; a selector that raised or matched nothing is `none`.  The parsed
`"A-B de N itens"` pagination text is `brRange = some (A, B, N)`; `none`
covers a missing component, empty text, and a failed regex match alike
(each falls through to the next strategy in the source). -/

/-- A probed pagination button: its `disabled` attribute (absent = enabled)
and its `class` attribute (the source substitutes `""` for a missing one). -/
structure BtnProbe where
  disabledAttr : Option String
  className : String
deriving Repr, DecidableEq

/-- The enabled test used by strategies 2 and 3: no `disabled` attribute and
no `disabled` token inside the lowercased class string. -/
def btnEnabled (b : BtnProbe) : Bool :=
  b.disabledAttr.isNone && !(strContains (pyLower b.className) "disabled")

/-- Strategy 3's loop over the fallback selectors: the first selector that
found a button passing the enabled test yields `true` (the source's early
`return True`); missing or raising selectors are skipped (`continue`). -/
def scanFallback : List (Option BtnProbe) → Bool
  | [] => false
  | none :: rest => scanFallback rest
  | some b :: rest => btnEnabled b || scanFallback rest

/-- What `check_for_next_page` observes on the page. -/
structure NextPageProbe where
  brRange : Option (Nat × Nat × Nat)
  brNextButton : Option BtnProbe
  fallbackButtons : List (Option BtnProbe)
deriving Repr, DecidableEq

/-- Strategy 2: probe the `br-pagination-table` next button (early
`return True` when it passes the enabled test); fall through to strategy 3
when it is absent, unreadable, or disabled. -/
def checkStrategy2 (p : NextPageProbe) : Bool :=
  match p.brNextButton with
  | some b => btnEnabled b || scanFallback p.fallbackButtons
  | none => scanFallback p.fallbackButtons

/-- `check_for_next_page`: pagination-range text first (`B < N` means more
pages, an early `return True`), then the known next button, then the generic
fallback selectors; no signal from any strategy means `false` (end of list,
not an error). -/
def check_for_next_page (p : NextPageProbe) : Bool :=
  match p.brRange with
  | some (_, endShown, total) =>
    decide (endShown < total) || checkStrategy2 p
  | none => checkStrategy2 p

theorem scanFallback_iff (l : List (Option BtnProbe)) :
    scanFallback l = true ↔ ∃ b, some b ∈ l ∧ btnEnabled b = true := by
  induction l with
  | nil => simp [scanFallback]
  | cons hd rest ih =>
    cases hd with
    | none =>
      rw [show scanFallback (none :: rest) = scanFallback rest from rfl, ih]
      constructor
      · rintro ⟨b2, hb2, he2⟩
        exact ⟨b2, List.mem_cons_of_mem _ hb2, he2⟩
      · rintro ⟨b2, hb2, he2⟩
        rcases List.mem_cons.mp hb2 with heq | hmem
        · exact absurd heq (by simp)
        · exact ⟨b2, hmem, he2⟩
    | some b =>
      rw [show scanFallback (some b :: rest)
            = (btnEnabled b || scanFallback rest) from rfl]
      rw [Bool.or_eq_true, ih]
      constructor
      · rintro (hb | ⟨b2, hb2, he2⟩)
        · exact ⟨b, List.mem_cons_self _ _, hb⟩
        · exact ⟨b2, List.mem_cons_of_mem _ hb2, he2⟩
      · rintro ⟨b2, hb2, he2⟩
        rcases List.mem_cons.mp hb2 with heq | hmem
        · cases heq; exact Or.inl he2
        · exact Or.inr ⟨b2, hmem, he2⟩

/-- C6: next-page detection signals a next page iff one of its three
strategies does — structured range text with `B < N`, an enabled known next
button, or an enabled button behind one of the generic fallback selectors —
and returns `false` (not an error) exactly when none of them signals. -/
theorem check_for_next_page_iff (p : NextPageProbe) :
    check_for_next_page p = true ↔
      ((∃ a e tot, p.brRange = some (a, e, tot) ∧ e < tot) ∨
       (∃ b, p.brNextButton = some b ∧ btnEnabled b = true) ∨
       (∃ b, some b ∈ p.fallbackButtons ∧ btnEnabled b = true)) := by
  have h2iff : checkStrategy2 p = true ↔
      ((∃ b, p.brNextButton = some b ∧ btnEnabled b = true) ∨
       (∃ b, some b ∈ p.fallbackButtons ∧ btnEnabled b = true)) := by
    cases hb : p.brNextButton with
    | none =>
      simp only [checkStrategy2, hb, scanFallback_iff]
      constructor
      · intro h; exact Or.inr h
      · rintro (⟨b2, hb2, _⟩ | h)
        · exact absurd hb2 (by simp)
        · exact h
    | some btn =>
      simp only [checkStrategy2, hb, Bool.or_eq_true, scanFallback_iff]
      constructor
      · rintro (hbe | h)
        · exact Or.inl ⟨btn, rfl, hbe⟩
        · exact Or.inr h
      · rintro (⟨b2, hb2, he2⟩ | h)
        · cases hb2; exact Or.inl he2
        · exact Or.inr h
  cases hr : p.brRange with
  | none =>
    simp only [check_for_next_page, hr, h2iff]
    constructor
    · intro h; exact Or.inr h
    · rintro (⟨a2, e2, tot2, heq, _⟩ | h)
      · exact absurd heq (by simp)
      · exact h
  | some rg =>
    obtain ⟨a, e, tot⟩ := rg
    simp only [check_for_next_page, hr, Bool.or_eq_true, decide_eq_true_eq,
      h2iff]
    constructor
    · rintro (hlt | h)
      · exact Or.inl ⟨a, e, tot, rfl, hlt⟩
      · exact Or.inr h
    · rintro (⟨a2, e2, tot2, heq, hlt⟩ | h)
      · injection heq with heq2
        injection heq2 with h1 h2
        injection h2 with h2 h3
        subst h2; subst h3
        exact Or.inl hlt
      · exact Or.inr h

/-! ### Item discovery (`src/fine_scrapper.py`, `get_vehicle_items`)

A candidate element is modelled by what the per-element probes read from
it; `probeRaises` marks an element whose probe threw (the source skips it
with `continue`). -/

/-- One candidate element yielded by a discovery selector. -/
structure Candidate where
  cursorPointer : Bool
  hasOnclick : Bool
  text : String
  className : String
  probeRaises : Bool
deriving Repr, DecidableEq

/-- The pagination/control keywords filtered out by the primary validation
(list copied verbatim from the source, duplicate included). -/
def paginationKeywords : List String :=
  ["exibir", "página", "página", "itens", "próximo", "anterior"]

/-- Primary-path clickability: pointer cursor or an onclick handler. -/
def isClickable (c : Candidate) : Bool := c.cursorPointer || c.hasOnclick

/-- Primary-path content test: stripped text longer than 10 characters. -/
def hasContent (c : Candidate) : Bool := decide (10 < (pyStrip c.text).data.length)

/-- Primary-path pagination test: any keyword occurs in the lowercased text. -/
def isPagination (c : Candidate) : Bool :=
  paginationKeywords.any (fun kw => strContains (pyLower c.text) kw)

/-- The full primary validation: probes succeeded, clickable, has content,
not a pagination artifact. -/
def validPrimary (c : Candidate) : Bool :=
  !c.probeRaises && isClickable c && hasContent c && !(isPagination c)

/-- XPath-fallback validation: only the `card-list-item` class is checked. -/
def validXPath (c : Candidate) : Bool :=
  !c.probeRaises && strContains c.className "card-list-item"

/-- CSS-fallback validation: the `card-list-item` class plus a pointer
cursor (the fallback's clickability probe checks only the cursor). -/
def validCss (c : Candidate) : Bool :=
  !c.probeRaises && strContains c.className "card-list-item" && c.cursorPointer

/-- What the three discovery selectors yield on the current list page. -/
structure VehicleListPage where
  primaryItems : List Candidate
  xpathItems : List Candidate
  cssItems : List Candidate
deriving Repr, DecidableEq

/-- `get_vehicle_items`: filter the primary class-based candidates through
the full validation; when none survive, fall back to the positional XPath
query (class check only), then to the structural CSS query (class and
cursor checks). -/
def get_vehicle_items (p : VehicleListPage) : List Candidate :=
  let primary := p.primaryItems.filter validPrimary
  if 0 < primary.length then primary
  else
    let xpath := p.xpathItems.filter validXPath
    if 0 < xpath.length then xpath
    else p.cssItems.filter validCss

/-- A pagination control that carries the item class: not clickable, short
of real content, and textually a pagination artifact. -/
def paginationControl : Candidate :=
  { cursorPointer := false
    hasOnclick := false
    text := "1-9 de 11 itens próximo"
    className := "card-list-item pagination"
    probeRaises := false }

/-- A list page on which the primary selector yields nothing and the XPath
fallback yields only the pagination control. -/
def fallbackOnlyPage : VehicleListPage :=
  { primaryItems := []
    xpathItems := [paginationControl]
    cssItems := [] }

/-- C2 counterexample: on a page with N = 0 genuine item markers and M = 1
pagination marker bearing the item class, the walk's output contains that
pagination control — produced by the XPath fallback, it is not clickable,
matches pagination text, and the page count is 1, not N = 0. -/
theorem get_vehicle_items_fallback_violation :
    get_vehicle_items fallbackOnlyPage = [paginationControl] ∧
    isPagination paginationControl = true ∧
    isClickable paginationControl = false ∧
    (get_vehicle_items fallbackOnlyPage).length = 1 := by
  refine ⟨by decide, by decide, by decide, by decide⟩

/-- C2 amended: every item the primary class-based selector path emits
passes all three validity predicates, and when the primary candidates are
exactly the N genuine markers and M pagination markers (the fallback
selectors yielding nothing), the per-page count equals N for any N, M ≥ 0;
the XPath and CSS fallback paths check only class membership (resp. class
membership and pointer cursor), so their items may violate the text
predicates. -/
theorem get_vehicle_items_primary (genuine controls : List Candidate)
    (hg : ∀ c ∈ genuine, validPrimary c = true)
    (hc : ∀ c ∈ controls, isPagination c = true) :
    get_vehicle_items ⟨genuine ++ controls, [], []⟩ = genuine ∧
    (get_vehicle_items ⟨genuine ++ controls, [], []⟩).length = genuine.length ∧
    (∀ c ∈ get_vehicle_items ⟨genuine ++ controls, [], []⟩,
        isClickable c = true ∧ hasContent c = true ∧ isPagination c = false) := by
  have hfilter : (genuine ++ controls).filter validPrimary = genuine := by
    rw [List.filter_append]
    rw [List.filter_eq_self.mpr hg]
    have hnil : controls.filter validPrimary = [] := by
      rw [List.filter_eq_nil_iff]
      intro c hmem
      simp [validPrimary, hc c hmem]
    rw [hnil, List.append_nil]
  have hout : get_vehicle_items ⟨genuine ++ controls, [], []⟩ = genuine := by
    unfold get_vehicle_items
    simp only [hfilter]
    cases genuine with
    | nil => simp
    | cons g rest => simp
  refine ⟨hout, by rw [hout], ?_⟩
  intro c hcmem
  rw [hout] at hcmem
  have hv := hg c hcmem
  unfold validPrimary at hv
  simp only [Bool.and_eq_true, Bool.not_eq_true'] at hv
  exact ⟨hv.1.1.2, hv.1.2, hv.2⟩

/-- A genuine vehicle item marker. -/
def genuineItem : Candidate :=
  { cursorPointer := true
    hasOnclick := false
    text := "AAA1234 Fiat Uno 2009 prata"
    className := "card-list-item"
    probeRaises := false }

/-- A second genuine vehicle item marker. -/
def genuineItem2 : Candidate :=
  { cursorPointer := false
    hasOnclick := true
    text := "BBB5678 VW Gol 2015 preto"
    className := "card-list-item"
    probeRaises := false }

/-- C2 amended witness: N = 2 genuine markers and M = 1 pagination marker
give a page count of exactly 2, every output item passing all predicates. -/
theorem get_vehicle_items_primary_witness :
    get_vehicle_items ⟨[genuineItem, genuineItem2] ++ [paginationControl],
        [], []⟩ = [genuineItem, genuineItem2] ∧
    (get_vehicle_items ⟨[genuineItem, genuineItem2] ++ [paginationControl],
        [], []⟩).length = 2 ∧
    (∀ c ∈ get_vehicle_items ⟨[genuineItem, genuineItem2] ++
        [paginationControl], [], []⟩,
        isClickable c = true ∧ hasContent c = true ∧ isPagination c = false) := by
  have h := get_vehicle_items_primary [genuineItem, genuineItem2]
    [paginationControl] (by decide) (by decide)
  exact ⟨h.1, by rw [h.1]; decide, h.2.2⟩

/-! ### Per-item processing (`src/fine_scrapper.py`, `process_vehicle`)

One item's processing is modelled by the outcomes of its awaited steps.
A generic exception from any step lands in `process_vehicle`'s outer
`except` block, which attempts `go_back_to_vehicle_list` and then executes
a bare `raise`, re-raising the original exception to the caller; the error
value records that the recovery attempt happened. -/

/-- The error escaping `process_vehicle`: the outer handler has always
attempted back-navigation recovery before its bare `raise`. -/
structure ProcError where
  recoveryAttempted : Bool
deriving Repr, DecidableEq

/-- The non-raising outcomes of processing one vehicle. -/
inductive VehicleOutcome where
  | processed (fineCount : Nat)
  | noDetail
  | captchaSkipped
deriving Repr, DecidableEq

/-- How the awaited steps of one vehicle's processing turn out. -/
structure VehicleRun where
  stepRaises : Bool
  captchaErrorHandled : Bool
  finesAppear : Bool
  fineCount : Nat
  reacquireRaises : Bool
deriving Repr, DecidableEq

/-- `process_vehicle`: a raising step is caught, recovery attempted, and the
exception re-raised (`Except.error`); an unresolved CAPTCHA error or an
absent fine block are absorbed as early returns; a failure while
re-acquiring the list after processing also re-raises. -/
def process_vehicle (r : VehicleRun) : Except ProcError VehicleOutcome :=
  if r.stepRaises then .error ⟨true⟩
  else if !r.captchaErrorHandled then .ok .captchaSkipped
  else if !r.finesAppear then .ok .noDetail
  else if r.reacquireRaises then .error ⟨true⟩
  else .ok (.processed r.fineCount)

/-- The per-page item loop of `process_all_vehicle_pages`: items are
processed in order with no `try` around the call, so an exception from
`process_vehicle` propagates and the remaining items are never reached. -/
def processVehiclesOnPage : List VehicleRun → Except ProcError (List VehicleOutcome)
  | [] => .ok []
  | r :: rs =>
    match process_vehicle r with
    | .error e => .error e
    | .ok o =>
      match processVehiclesOnPage rs with
      | .error e => .error e
      | .ok os => .ok (o :: os)

/-- Does this run make `process_vehicle` raise? -/
def vehicleFails (r : VehicleRun) : Bool :=
  r.stepRaises || (r.captchaErrorHandled && r.finesAppear && r.reacquireRaises)

/-- A run whose every step succeeds. -/
def smoothRun : VehicleRun :=
  { stepRaises := false, captchaErrorHandled := true, finesAppear := true
    fineCount := 2, reacquireRaises := false }

/-- A run whose click/wait step throws. -/
def throwingRun : VehicleRun :=
  { stepRaises := true, captchaErrorHandled := true, finesAppear := true
    fineCount := 0, reacquireRaises := false }

/-- C1 counterexample: in a page of three items whose second item's
processing throws, the failure escapes `process_vehicle` (after the
recovery attempt) and aborts the page's walk — the third item is never
processed, refuting that a failed item never aborts the overall walk. -/
theorem process_vehicle_aborts_walk :
    process_vehicle throwingRun = .error ⟨true⟩ ∧
    processVehiclesOnPage [smoothRun, throwingRun, smoothRun] = .error ⟨true⟩ :=
  ⟨rfl, rfl⟩

theorem process_vehicle_error_of_fails (r : VehicleRun)
    (h : vehicleFails r = true) : process_vehicle r = .error ⟨true⟩ := by
  unfold vehicleFails at h
  unfold process_vehicle
  simp only [Bool.or_eq_true, Bool.and_eq_true] at h
  rcases h with hs | ⟨⟨hc, hf⟩, hrr⟩
  · simp [hs]
  · by_cases hsr : r.stepRaises = true
    · simp [hsr]
    · have hsr2 : r.stepRaises = false := by simpa using hsr
      simp [hsr2, hc, hf, hrr]

theorem process_vehicle_ok_of_not_fails (r : VehicleRun)
    (h : vehicleFails r = false) : ∃ o, process_vehicle r = .ok o := by
  unfold vehicleFails at h
  unfold process_vehicle
  simp only [Bool.or_eq_false_iff, Bool.and_eq_false_iff] at h
  obtain ⟨hs, hrest⟩ := h
  simp only [hs, Bool.false_eq_true, if_false]
  cases hc : r.captchaErrorHandled with
  | false => exact ⟨.captchaSkipped, by simp⟩
  | true =>
    cases hf : r.finesAppear with
    | false => exact ⟨.noDetail, by simp⟩
    | true =>
      rcases hrest with (hbad | hbad) | hr
      · rw [hc] at hbad; exact absurd hbad (by simp)
      · rw [hf] at hbad; exact absurd hbad (by simp)
      · exact ⟨.processed r.fineCount, by simp [hr]⟩

/-- C1 amended: `process_vehicle` catches a failing item's exception and
attempts back-navigation recovery, but then re-raises it, and the page loop
does not catch it either — so the first failing item aborts the page's
walk with the re-raised error (only the unresolved-CAPTCHA and
no-detail-found paths are absorbed as non-raising outcomes). -/
theorem processVehiclesOnPage_aborts_at_first_failure
    (pre post : List VehicleRun) (r : VehicleRun)
    (hpre : ∀ q ∈ pre, vehicleFails q = false)
    (hr : vehicleFails r = true) :
    processVehiclesOnPage (pre ++ r :: post) = .error ⟨true⟩ := by
  induction pre with
  | nil =>
    simp only [List.nil_append]
    unfold processVehiclesOnPage
    rw [process_vehicle_error_of_fails r hr]
  | cons q rest ih =>
    simp only [List.cons_append]
    unfold processVehiclesOnPage
    obtain ⟨o, ho⟩ := process_vehicle_ok_of_not_fails q
      (hpre q (List.mem_cons_self _ _))
    rw [ho, ih (fun q2 hq2 => hpre q2 (List.mem_cons_of_mem _ hq2))]

/-- C1 amended witness: the abort property applied to the concrete page
`[smoothRun, throwingRun, smoothRun]`. -/
theorem processVehiclesOnPage_aborts_witness :
    processVehiclesOnPage ([smoothRun] ++ throwingRun :: [smoothRun])
      = .error ⟨true⟩ :=
  processVehiclesOnPage_aborts_at_first_failure [smoothRun] [smoothRun]
    throwingRun (by decide) (by decide)

/-! ### The page walk (`src/fine_scrapper.py`, `process_all_vehicle_pages`)

The `while True` loop is modelled with explicit fuel: `none` means the loop
is still running after that many iterations; `some` carries the loop's exit
(the advance count on a normal break, or the propagated per-item error).
There is no maximum-pages ceiling anywhere in the loop or its
configuration. -/

/-- The world the walk observes, indexed by 1-based page number. -/
structure WalkWorld where
  listVisible : Nat → Bool
  itemRuns : Nat → List VehicleRun
  hasNextPage : Nat → Bool
  captchaOkAfterNav : Nat → Bool

/-- `process_all_vehicle_pages`, fuel-bounded: each iteration breaks when
the list is missing, when no vehicles validate, when next-page detection
reports no page, or when a CAPTCHA error after navigation is unresolvable
(this last break happens after the advance); a per-item exception
propagates out; otherwise the loop advances to the next page. -/
def walkPages (w : WalkWorld) :
    Nat → Nat → Nat → Option (Except ProcError Nat)
  | 0, _, _ => none
  | fuel + 1, pageNumber, advances =>
    if !w.listVisible pageNumber then some (.ok advances)
    else if (w.itemRuns pageNumber).isEmpty then some (.ok advances)
    else
      match processVehiclesOnPage (w.itemRuns pageNumber) with
      | .error e => some (.error e)
      | .ok _ =>
        if !w.hasNextPage pageNumber then some (.ok advances)
        else if !w.captchaOkAfterNav (pageNumber + 1) then
          some (.ok (advances + 1))
        else walkPages w fuel (pageNumber + 1) (advances + 1)

/-- A world whose next-page detector always reports another page and whose
pages always process cleanly. -/
def runawayWorld : WalkWorld :=
  { listVisible := fun _ => true
    itemRuns := fun _ => [smoothRun]
    hasNextPage := fun _ => true
    captchaOkAfterNav := fun _ => true }

/-- C7: the walk has no maximum-pages ceiling — against a detector that
always reports another page it performs one page advance per iteration and
never exits, for every fuel bound; no configured ceiling can bound its
advances because none exists in `process_all_vehicle_pages`. -/
theorem walkPages_unbounded :
    ∀ (fuel pageNumber advances : Nat),
      walkPages runawayWorld fuel pageNumber advances = none := by
  intro fuel
  induction fuel with
  | zero => intro pageNumber advances; rfl
  | succ f ih =>
    intro pageNumber advances
    unfold walkPages
    have hitems : processVehiclesOnPage (runawayWorld.itemRuns pageNumber)
        = .ok [.processed 2] := rfl
    rw [hitems]
    show walkPages runawayWorld f (pageNumber + 1) (advances + 1) = none
    exact ih (pageNumber + 1) (advances + 1)

/-! ### Challenge detection (`src/captcha_handler.py`, `detect_captcha`)

The page is modelled by what each selector probe returns: `selectorCount
pat = none` means the probe for `pat` threw (the source skips it with
`continue`), `some n` is its element count.  `bodyText` is the body's inner
text (`none` = that read threw). -/

/-- What the detector's probes can observe on the page. -/
structure CaptchaPageProbe where
  selectorCount : String → Option Nat
  firstText : String → Option String
  bodyText : Option String

/-- The prioritized pattern table `CAPTCHA_PATTERNS`, family order and
selector strings copied from the source. -/
def CAPTCHA_PATTERNS : List (String × List String) :=
  [("reCAPTCHA",
    ["text=/recaptcha/i", "[class*=\"recaptcha\"]", "[id*=\"recaptcha\"]",
     "iframe[src*=\"recaptcha\"]"]),
   ("hCaptcha",
    ["text=/hcaptcha/i", "[class*=\"hcaptcha\"]", "[id*=\"hcaptcha\"]",
     "iframe[src*=\"hcaptcha\"]"]),
   ("image_captcha",
    ["text=/captcha.*imagem|captcha.*image/i", "[class*=\"captcha-image\"]",
     "img[alt*=\"captcha\"]"]),
   ("text_captcha",
    ["text=/captcha.*texto|captcha.*text/i", "[class*=\"captcha-text\"]"]),
   ("generic_captcha",
    ["text=/captcha.*inválido|captcha.*invalid|captcha/i",
     "[class*=\"captcha\"]", "[id*=\"captcha\"]"]),
   ("error_message",
    ["text=/ERL0033800/i", "text=/erro.*captcha|error.*captcha/i",
     "text=/captcha.*inválido|captcha.*invalid/i"])]

/-- A pattern probe "hits" when it neither throws nor counts zero. -/
def patternHit (pg : CaptchaPageProbe) (pat : String) : Option Nat :=
  match pg.selectorCount pat with
  | some (n + 1) => some (n + 1)
  | _ => none

/-- The inner pattern loop: first hitting pattern of a family wins; raising
or empty probes are skipped. -/
def findHit (pg : CaptchaPageProbe) : List String → Option (String × Nat)
  | [] => none
  | pat :: rest =>
    match patternHit pg pat with
    | some n => some (pat, n)
    | none => findHit pg rest

/-- The outer family loop: first family with a hitting pattern wins. -/
def findFamilyHit (pg : CaptchaPageProbe) :
    List (String × List String) → Option (String × String × Nat)
  | [] => none
  | (fam, pats) :: rest =>
    match findHit pg pats with
    | some (pat, n) => some (fam, pat, n)
    | none => findFamilyHit pg rest

/-- The dictionary `detect_captcha` returns. -/
structure CaptchaDetection where
  detected : Bool
  ctype : Option String
  elementCount : Nat
  errorMessage : Option String
deriving Repr, DecidableEq

/-- The initial (nothing detected) result. -/
def notDetected : CaptchaDetection :=
  { detected := false, ctype := none, elementCount := 0, errorMessage := none }

/-- The keyword list of the page-content fallback. -/
def captchaKeywords : List String :=
  ["captcha", "recaptcha", "hcaptcha", "verificação"]

/-- `CaptchaHandler.detect_captcha`: walk the pattern table in priority
order and return on the first hit (reading an error message for the two
error-ish families); with no hit, fall back to scanning the lowercased body
text for a captcha keyword together with an invalid-marker. -/
def detect_captcha (pg : CaptchaPageProbe) : CaptchaDetection :=
  match findFamilyHit pg CAPTCHA_PATTERNS with
  | some (fam, pat, n) =>
    { detected := true
      ctype := some fam
      elementCount := n
      errorMessage :=
        if fam = "generic_captcha" || fam = "error_message" then
          match pg.firstText pat with
          | some t => if t.data.isEmpty then none else some ⟨t.data.take 200⟩
          | none => none
        else none }
  | none =>
    match pg.bodyText with
    | some raw =>
      if captchaKeywords.any (fun kw => strContains (pyLower raw) kw) &&
         (strContains (pyLower raw) "inválido" ||
          strContains (pyLower raw) "invalid") then
        { detected := true, ctype := some "generic_captcha",
          elementCount := 0, errorMessage := none }
      else notDetected
    | none => notDetected

/-- Does some pattern of this family hit on the page? -/
def familyMatches (pg : CaptchaPageProbe) (fp : String × List String) : Bool :=
  fp.2.any (fun pat => (patternHit pg pat).isSome)

/-- Does the body-text keyword fallback fire? -/
def bodyFallbackFires (pg : CaptchaPageProbe) : Bool :=
  match pg.bodyText with
  | some raw =>
    captchaKeywords.any (fun kw => strContains (pyLower raw) kw) &&
      (strContains (pyLower raw) "inválido" ||
       strContains (pyLower raw) "invalid")
  | none => false

theorem findHit_isSome (pg : CaptchaPageProbe) (pats : List String) :
    (findHit pg pats).isSome
      = pats.any (fun pat => (patternHit pg pat).isSome) := by
  induction pats with
  | nil => rfl
  | cons p rest ih =>
    unfold findHit
    cases hp : patternHit pg p <;> simp [hp, ih]

theorem findFamilyHit_fst (pg : CaptchaPageProbe) :
    ∀ (fams : List (String × List String)) (fam pat : String) (n : Nat),
      findFamilyHit pg fams = some (fam, pat, n) →
      ∃ pats, fams.find? (familyMatches pg) = some (fam, pats) := by
  intro fams
  induction fams with
  | nil => intro fam pat n h; exact absurd h (by simp [findFamilyHit])
  | cons fp rest ih =>
    intro fam pat n h
    obtain ⟨fam0, pats0⟩ := fp
    unfold findFamilyHit at h
    cases hh : findHit pg pats0 with
    | some pn =>
      rw [hh] at h
      obtain ⟨pat0, n0⟩ := pn
      dsimp only at h
      simp only [Option.some.injEq, Prod.mk.injEq] at h
      obtain ⟨hfam, hpat, hn⟩ := h
      rw [← hfam]
      refine ⟨pats0, ?_⟩
      rw [List.find?_cons_of_pos]
      show familyMatches pg (fam0, pats0) = true
      rw [familyMatches, ← findHit_isSome, hh]
      rfl
    | none =>
      rw [hh] at h
      dsimp only at h
      obtain ⟨pats2, hf⟩ := ih fam pat n h
      refine ⟨pats2, ?_⟩
      rw [List.find?_cons_of_neg, hf]
      show ¬ familyMatches pg (fam0, pats0) = true
      rw [familyMatches, ← findHit_isSome, hh]
      simp

theorem findFamilyHit_none (pg : CaptchaPageProbe) :
    ∀ (fams : List (String × List String)),
      findFamilyHit pg fams = none →
      fams.find? (familyMatches pg) = none := by
  intro fams
  induction fams with
  | nil => intro _; rfl
  | cons fp rest ih =>
    intro h
    obtain ⟨fam0, pats0⟩ := fp
    unfold findFamilyHit at h
    cases hh : findHit pg pats0 with
    | some pn => rw [hh] at h; dsimp only at h; exact absurd h (by simp)
    | none =>
      rw [hh] at h
      dsimp only at h
      rw [List.find?_cons_of_neg, ih h]
      show ¬ familyMatches pg (fam0, pats0) = true
      rw [familyMatches, ← findHit_isSome, hh]
      simp

/-- C5: the detector walks its probe families in the fixed priority order
and reports exactly the first family with a hitting probe (never
aggregating concurrent challenges, deterministically for a fixed page);
throwing probes are skipped (`patternHit` treats them like a zero count),
and when no probe family hits, a challenge is reported only if the body
keyword fallback fires — never from probe failure alone. -/
theorem detect_captcha_priority (pg : CaptchaPageProbe) :
    (∀ fam pats,
        CAPTCHA_PATTERNS.find? (familyMatches pg) = some (fam, pats) →
        (detect_captcha pg).detected = true ∧
        (detect_captcha pg).ctype = some fam) ∧
    (CAPTCHA_PATTERNS.find? (familyMatches pg) = none →
        ((detect_captcha pg).detected = true ↔ bodyFallbackFires pg = true)) := by
  cases hf : findFamilyHit pg CAPTCHA_PATTERNS with
  | some t =>
    obtain ⟨fam0, pat0, n0⟩ := t
    obtain ⟨pats0, hfind⟩ := findFamilyHit_fst pg CAPTCHA_PATTERNS fam0 pat0 n0 hf
    constructor
    · intro fam pats h
      rw [hfind] at h
      simp only [Option.some.injEq, Prod.mk.injEq] at h
      obtain ⟨hfam, hpats⟩ := h
      subst hfam
      unfold detect_captcha
      rw [hf]
      exact ⟨rfl, rfl⟩
    · intro h
      rw [hfind] at h
      exact absurd h (by simp)
  | none =>
    constructor
    · intro fam pats h
      rw [findFamilyHit_none pg CAPTCHA_PATTERNS hf] at h
      exact absurd h (by simp)
    · intro _
      unfold detect_captcha
      rw [hf]
      unfold bodyFallbackFires
      cases hb : pg.bodyText with
      | none => simp [notDetected]
      | some raw =>
        by_cases hc : (captchaKeywords.any
            (fun kw => strContains (pyLower raw) kw) &&
            (strContains (pyLower raw) "inválido" ||
             strContains (pyLower raw) "invalid")) = true
        · simp [hc]
        · have hc2 : (captchaKeywords.any
              (fun kw => strContains (pyLower raw) kw) &&
              (strContains (pyLower raw) "inválido" ||
               strContains (pyLower raw) "invalid")) = false := by
            simpa using hc
          simp [hc2, notDetected]

/-- A page showing both an hCaptcha widget and an `ERL0033800` error banner
(every other probe counting zero), with captcha keywords in the body. -/
def demoCaptchaPage : CaptchaPageProbe :=
  { selectorCount := fun pat =>
      if pat = "[id*=\"hcaptcha\"]" then some 2
      else if pat = "text=/ERL0033800/i" then some 1
      else some 0
    firstText := fun _ => some "widget"
    bodyText := some "resolva o captcha" }

/-- C5 witness: with a widget-family marker and a banner-family marker
present simultaneously, the detector reports exactly one challenge — the
widget family, which precedes the banner family in the priority order. -/
theorem detect_captcha_priority_witness :
    (detect_captcha demoCaptchaPage).detected = true ∧
    (detect_captcha demoCaptchaPage).ctype = some "hCaptcha" :=
  (detect_captcha_priority demoCaptchaPage).1 "hCaptcha"
    ["text=/hcaptcha/i", "[class*=\"hcaptcha\"]", "[id*=\"hcaptcha\"]",
     "iframe[src*=\"hcaptcha\"]"] (by decide)

/-! ### Challenge resolution wait
(`src/captcha_handler.py`, `wait_for_captcha_solution` / `handle_captcha`)

The polling loop is modelled with explicit wall time: the page over time is
a function of the elapsed seconds, `time.sleep(s)` advances the clock by
`s`, and the probes are idealised as instantaneous.  `detected t` stands
for `detect_captcha(page at time t)['detected']`, `erlInvalid t` for the
`ERL0033800` banner showing with invalid-text at time `t`. -/

/-- The page as the polling loop observes it over elapsed time. -/
structure WaitWorld where
  url : Nat → String
  erlInvalid : Nat → Bool
  detected : Nat → Bool

/-- Tail of one loop iteration: the redirect-to-portal check on the URL
read at the iteration's start, else the final `time.sleep(check_interval)`
(`Sum.inr` carries the elapsed time at which the next iteration starts). -/
def waitBody3 (tick t3 : Nat) (cur : String) : Sum (Bool × Nat) Nat :=
  if strContains cur "portalservicos.senatran" &&
     !(strContains cur "sso.acesso.gov.br") then
    Sum.inl (true, t3)
  else Sum.inr (t3 + tick)

/-- Middle of one loop iteration: the `ERL0033800` invalid branch (sleep one
interval and `continue`), then the detection debounce (a clear reading is
confirmed 2 seconds later before returning success). -/
def waitBody2 (w : WaitWorld) (tick t2 : Nat) (cur : String) :
    Sum (Bool × Nat) Nat :=
  if w.erlInvalid t2 then Sum.inr (t2 + tick)
  else if !(w.detected t2) then
    if !(w.detected (t2 + 2)) then Sum.inl (true, t2 + 2)
    else waitBody3 tick (t2 + 2) cur
  else waitBody3 tick t2 cur

/-- One full loop iteration of `wait_for_captcha_solution` at elapsed time
`t`: the URL-change branch first (with its 2-second verify sleep), then the
rest of the body. -/
def waitBody (w : WaitWorld) (tick t : Nat) (lastUrl : String) :
    Sum (Bool × Nat) Nat :=
  if w.url t != lastUrl &&
     !(strContains (w.url t) "sso.acesso.gov.br/login") then
    if !(w.detected (t + 2)) then Sum.inl (true, t + 2)
    else waitBody2 w tick (t + 2) (w.url t)
  else waitBody2 w tick t (w.url t)

theorem waitBody3_inr (tick t3 : Nat) (cur : String) (t2 : Nat)
    (h : waitBody3 tick t3 cur = Sum.inr t2) : t2 = t3 + tick := by
  unfold waitBody3 at h
  split at h
  · exact absurd h (by simp)
  · injection h with h2; omega

theorem waitBody2_inr (w : WaitWorld) (tick ta : Nat) (cur : String)
    (t2 : Nat) (h : waitBody2 w tick ta cur = Sum.inr t2) :
    ta + tick ≤ t2 := by
  unfold waitBody2 at h
  split at h
  · injection h with h2; omega
  · split at h
    · split at h
      · exact absurd h (by simp)
      · have := waitBody3_inr tick (ta + 2) cur t2 h; omega
    · have := waitBody3_inr tick ta cur t2 h; omega

theorem waitBody_inr (w : WaitWorld) (tick t : Nat) (lastUrl : String)
    (t2 : Nat) (h : waitBody w tick t lastUrl = Sum.inr t2) :
    t + tick ≤ t2 := by
  unfold waitBody at h
  split at h
  · split at h
    · exact absurd h (by simp)
    · have := waitBody2_inr w tick (t + 2) (w.url t) t2 h; omega
  · exact waitBody2_inr w tick t (w.url t) t2 h

/-- `CaptchaHandler.wait_for_captcha_solution`: repeat the loop body while
`time.time() - start < max_wait`, threading the elapsed time and
`last_url`; falling out of the loop returns `False` with the elapsed time
at which it did (the function returns rather than raising).
`handle_captcha` propagates this `False` to its caller on timeout. -/
def wait_for_captcha_solution (w : WaitWorld) (maxWait tick : Nat)
    (htick : 0 < tick) (t : Nat) (lastUrl : String) : Bool × Nat :=
  if h : t < maxWait then
    match hb : waitBody w tick t lastUrl with
    | Sum.inl r => r
    | Sum.inr t2 => wait_for_captcha_solution w maxWait tick htick t2 (w.url t)
  else (false, t)
termination_by maxWait - t
decreasing_by
  have h2 := waitBody_inr w tick t lastUrl t2 hb
  omega

/-- C4: a challenge that never clears (detection always positive, URL stuck
on the SSO login host) makes the resolver return `False` — it is a total
function, not an exception — after elapsed time at most
`max_wait + one tick interval`; deciding whether that is fatal is left to
the caller of `handle_captcha`. -/
theorem wait_for_captcha_solution_timeout (w : WaitWorld)
    (maxWait tick : Nat) (htick : 0 < tick)
    (hurl : ∀ t, w.url t = w.url 0)
    (hsso : strContains (w.url 0) "sso.acesso.gov.br/login" = true)
    (hsso2 : strContains (w.url 0) "sso.acesso.gov.br" = true)
    (hdet : ∀ t, w.detected t = true) :
    (wait_for_captcha_solution w maxWait tick htick 0 (w.url 0)).1 = false ∧
    (wait_for_captcha_solution w maxWait tick htick 0 (w.url 0)).2
      ≤ maxWait + tick := by
  have step : ∀ t, waitBody w tick t (w.url 0) = Sum.inr (t + tick) := by
    intro t
    unfold waitBody
    rw [hurl t]
    have hne : (w.url 0 != w.url 0) = false := by simp
    rw [hne, Bool.false_and, if_neg (by simp)]
    unfold waitBody2
    cases he : w.erlInvalid t with
    | true => simp [he]
    | false =>
      rw [if_neg (by simp [he]), hdet t, if_neg (by simp)]
      unfold waitBody3
      rw [hsso2]
      simp
  suffices haux : ∀ k t, maxWait - t ≤ k → t < maxWait + tick →
      (wait_for_captcha_solution w maxWait tick htick t (w.url 0)).1 = false ∧
      (wait_for_captcha_solution w maxWait tick htick t (w.url 0)).2
        < maxWait + tick by
    have h0 := haux maxWait 0 (by omega) (by omega)
    exact ⟨h0.1, le_of_lt h0.2⟩
  intro k
  induction k with
  | zero =>
    intro t hk ht
    rw [wait_for_captcha_solution, dif_neg (by omega)]
    exact ⟨rfl, ht⟩
  | succ k ih =>
    intro t hk ht
    by_cases hlt : t < maxWait
    · rw [wait_for_captcha_solution, dif_pos hlt]
      split
      · rename_i r hb
        rw [step t] at hb
        exact absurd hb (by simp)
      · rename_i t2 hb
        rw [step t] at hb
        injection hb with hb2
        subst hb2
        rw [hurl t]
        exact ih (t + tick) (by omega) (by omega)
    · rw [wait_for_captcha_solution, dif_neg hlt]
      exact ⟨rfl, ht⟩

/-- A page stuck on the SSO login URL with the CAPTCHA never clearing. -/
def stuckWorld : WaitWorld :=
  { url := fun _ => "https://sso.acesso.gov.br/login?client_id=x"
    erlInvalid := fun _ => false
    detected := fun _ => true }

/-- C4 witness: `max_wait = 300` and `check_interval = 2` (the source's
defaults) on the never-clearing page return `False` within 302 seconds. -/
theorem wait_for_captcha_solution_timeout_witness :
    (wait_for_captcha_solution stuckWorld 300 2 (by decide) 0
        (stuckWorld.url 0)).1 = false ∧
    (wait_for_captcha_solution stuckWorld 300 2 (by decide) 0
        (stuckWorld.url 0)).2 ≤ 302 :=
  wait_for_captcha_solution_timeout stuckWorld 300 2 (by decide)
    (fun _ => rfl) (by decide) (by decide) (fun _ => rfl)

end Senatran
